import Mathlib

/-!
Verification of the seed task core (core/dbt/task/seed.py): the data model,
the SeedRunner lifecycle methods and the SeedTask orchestration hooks, with
theorems settling the specified properties.
-/

set_option maxRecDepth 2000
set_option linter.unusedVariables false

/-- Resource node types, from dbt.node_types.NodeType (string enum); the seed
task only distinguishes Seed from the rest. -/
inductive NodeType
  | Seed
  | Model
  | Test
  | Snapshot
  | Source
  | Analysis
  | Operation
  deriving DecidableEq, Repr

/-- Node / run statuses, from dbt.contracts.results. NodeStatus and RunStatus
are string enums sharing their Error value ("error"), so both comparisons in
seed.py (line 55 against NodeStatus.Error, line 125 against RunStatus.Error)
compare against the same value; we embed them as one inductive. -/
inductive NodeStatus
  | Success
  | Error
  | Fail
  | Warn
  | Skipped
  | Pass
  | RuntimeErr
  | PartialSuccess
  deriving DecidableEq, Repr

/-- Event severity levels, from dbt.events.base_types.EventLevel. -/
inductive EventLevel
  | DEBUG
  | TEST
  | INFO
  | WARN
  | ERROR
  deriving DecidableEq, Repr

/-- One schedulable resource node (manifest node): identity, declared type,
owning schema and alias, plus the node_info metadata blob forwarded to events. -/
structure ResourceNode where
  unique_id : String
  resource_type : NodeType
  schema : String
  «alias» : String
  node_info : String
  deriving DecidableEq, Repr

/-- The manifest: the full set of declared resource nodes. -/
structure Manifest where
  nodes : List ResourceNode
  deriving DecidableEq, Repr

/-- The dependency graph handle; selection consults the manifest for node data,
the graph only fixes ordering, which we keep abstract as an id list. -/
structure Graph where
  node_ids : List String
  deriving DecidableEq, Repr

/-- Previous-run state handle (dbt.graph PreviousState); the seed task passes
it through to the selector but never consults it itself. -/
structure PreviousState where
  state_id : Nat
  deriving DecidableEq, Repr

/-- Internal error raised by dbt, from dbt.exceptions.DbtInternalError; carries
only its message. -/
structure DbtInternalError where
  msg : String
  deriving DecidableEq, Repr

/-- Python AttributeError surfaced when a missing or None attribute is
accessed; carries the accessed attribute name. -/
structure AttributeError where
  attr : String
  deriving DecidableEq, Repr

/-- An agate table: a list of rows (each row a list of cell strings). -/
structure AgateTable where
  rows : List (List String)
  deriving DecidableEq, Repr

/-- Sorting a table by a row key, embedding agate Table.order_by; the random
key of seed.py line 108 (lambda x, random.random()) is supplied as the key
function argument. -/
def AgateTable.order_by (t : AgateTable) (key : List String → Nat) : AgateTable :=
  { rows := t.rows.mergeSort (fun a b => decide (key a ≤ key b)) }

/-- Rendering a table with a row bound and an optional column bound, embedding
agate Table.print_table: the rendered sample is the first max_rows rows, each
cut to max_columns columns when that bound is set. -/
def AgateTable.print_table (t : AgateTable) (max_rows : Nat) (max_columns : Option Nat) :
    List (List String) :=
  let limited := t.rows.take max_rows
  match max_columns with
  | none => limited
  | some c => limited.map (fun r => r.take c)

/-- One per-node execution result (dbt.contracts.results.RunResult as used by
seed.py): status, message, timing, the node, and the optional seed payload
(agate_table) attached by SeedRunner. -/
structure RunResult where
  status : NodeStatus
  message : Option String
  execution_time : Nat
  node : ResourceNode
  agate_table : Option AgateTable
  deriving DecidableEq, Repr

/-- The CLI flags consulted by SeedTask.task_end_messages. -/
structure Args where
  destiny : Bool
  freedom : Bool
  show_sample : Bool
  deriving DecidableEq, Repr

/-- The seed task state: CLI args and the graph / manifest / previous-state
handles inherited from the task base class. -/
structure SeedTask where
  args : Args
  manifest : Option Manifest
  graph : Option Graph
  previous_state : Option PreviousState
  deriving DecidableEq, Repr

/-- The per-node runner state used by SeedRunner: its node and the batch
position counters. -/
structure SeedRunner where
  node : ResourceNode
  node_index : Nat
  num_nodes : Nat
  deriving DecidableEq, Repr

/-- The adapter handle passed to defer_to_manifest; opaque to the seed task. -/
structure Adapter where
  name : String
  deriving DecidableEq, Repr

/-- The resource-type selector value constructed by get_node_selector
(seed.py lines 82-87). -/
structure ResourceTypeSelector where
  graph : Graph
  manifest : Manifest
  previous_state : Option PreviousState
  resource_types : List NodeType
  deriving DecidableEq, Repr

/-- Embedding of SeedTask.get_node_selector (seed.py lines 79-87): raise
DbtInternalError when manifest or graph is unset, otherwise construct the
ResourceTypeSelector for the Seed resource type. -/
def SeedTask.get_node_selector (t : SeedTask) :
    Except DbtInternalError ResourceTypeSelector :=
  if t.manifest.isNone ∨ t.graph.isNone then
    .error ⟨"manifest and graph must be set to get perform node selection"⟩
  else
    match t.manifest, t.graph with
    | some m, some g =>
        .ok { graph := g, manifest := m, previous_state := t.previous_state,
              resource_types := [NodeType.Seed] }
    | _, _ =>
        .error ⟨"manifest and graph must be set to get perform node selection"⟩

/-- Modelled from the spec: ResourceTypeSelector.select lives in dbt.graph,
which is not under src/; per the spec it filters the full node set down to the
nodes whose declared type is in resource_types, keeping graph order. -/
def ResourceTypeSelector.select (sel : ResourceTypeSelector) : List ResourceNode :=
  sel.manifest.nodes.filter (fun n => sel.resource_types.contains n.resource_type)

/-- Embedding of SeedRunner.compile (seed.py lines 50-51): returns the node
itself, ignoring the manifest. -/
def SeedRunner.compile (r : SeedRunner) (manifest : Manifest) : ResourceNode :=
  r.node

/-- Embedding of SeedTask.raise_on_first_error (seed.py lines 76-77). -/
def SeedTask.raise_on_first_error (t : SeedTask) : Bool :=
  false

/-- Embedding of SeedTask.defer_to_manifest (seed.py lines 72-74): the body is
a bare return; we model it in state-passing style, returning the task state
together with the list of previous-state provider queries it performed. -/
def SeedTask.defer_to_manifest (t : SeedTask) (adapter : Adapter)
    (selected_uids : List String) : SeedTask × List PreviousState :=
  (t, [])

/-- The per-result event emitted by SeedRunner.print_result_line
(dbt.events.types.LogSeedResult) together with its severity level. -/
structure LogSeedResultEvent where
  status : NodeStatus
  result_message : Option String
  index : Nat
  total : Nat
  execution_time : Nat
  schema : String
  relation : String
  node_info : String
  level : EventLevel
  deriving DecidableEq, Repr

/-- Embedding of SeedRunner.print_result_line (seed.py lines 53-68): builds the
LogSeedResult event from the result and runner state and fires it at ERROR
level exactly when the result status is Error, INFO otherwise. -/
def SeedRunner.print_result_line (r : SeedRunner) (result : RunResult) :
    LogSeedResultEvent :=
  let model := result.node
  let level := if result.status = NodeStatus.Error then EventLevel.ERROR
               else EventLevel.INFO
  { status := result.status
    result_message := result.message
    index := r.node_index
    total := r.num_nodes
    execution_time := result.execution_time
    schema := r.node.schema
    relation := model.«alias»
    node_info := model.node_info
    level := level }

/-- The value returned by the context load_result lookup (an
AdapterResponse-like object carrying the loaded agate table). -/
structure LoadResult where
  table : AgateTable
  deriving DecidableEq, Repr

/-- The execution context handed to _build_run_model_result: the raw outcome
fields the base builder wraps, and the load_result lookup function (the
context dict entry) used to fetch stored results by name. -/
structure ExecutionContext where
  raw_status : NodeStatus
  raw_message : Option String
  elapsed : Nat
  load_result : String → Option LoadResult

/-- Modelled from the spec: the shared base result builder
(ModelRunner._build_run_model_result, defined in run.py which is not under
src/): wraps the raw outcome into a result carrying status, message and
timing, with no execution payload attached. -/
def base_build_run_model_result (model : ResourceNode) (context : ExecutionContext) :
    RunResult :=
  { status := context.raw_status
    message := context.raw_message
    execution_time := context.elapsed
    node := model
    agate_table := none }

/-- Embedding of SeedRunner._build_run_model_result (seed.py lines 44-48):
builds the base result, then attaches the agate table fetched from the
context; when the lookup yields None, the .table access raises
AttributeError. -/
def SeedRunner.build_run_model_result (r : SeedRunner) (model : ResourceNode)
    (context : ExecutionContext) : Except AttributeError RunResult :=
  let result := base_build_run_model_result model context
  match context.load_result "agate_table" with
  | none => .error ⟨"table"⟩
  | some agate_result => .ok { result with agate_table := some agate_result.table }

/-- The rendering produced by one show_table call: the fired header event text
and the rows printed by print_table. -/
structure ShowRender where
  header : String
  rows : List (List String)
  deriving DecidableEq, Repr

/-- Embedding of SeedTask.show_table (seed.py lines 106-121): reads the
agate_table payload unconditionally (an absent payload raises AttributeError
at the order_by access), randomly reorders it via the supplied random key,
fires the header naming schema and alias, and prints at most 10 rows with no
column bound. -/
def SeedTask.show_table (t : SeedTask) (rand : List String → Nat)
    (result : RunResult) : Except AttributeError ShowRender :=
  match result.agate_table with
  | none => .error ⟨"order_by"⟩
  | some table =>
      let rand_table := table.order_by rand
      let schema := result.node.schema
      let «alias» := result.node.«alias»
      let header := "Random sample of table: " ++ schema ++ "." ++ «alias»
      .ok { header := header, rows := rand_table.print_table 10 none }

/-- Embedding of SeedTask.show_tables (seed.py lines 123-126): iterates the
results in order, calling show_table on every result whose status is not
Error; a raise inside show_table propagates and aborts the loop. -/
def SeedTask.show_tables (t : SeedTask) (rand : List String → Nat) :
    List RunResult → Except AttributeError (List ShowRender)
  | [] => .ok []
  | result :: rest =>
      if result.status ≠ NodeStatus.Error then
        match t.show_table rand result with
        | .error e => .error e
        | .ok render =>
            match SeedTask.show_tables t rand rest with
            | .error e => .error e
            | .ok renders => .ok (render :: renders)
      else
        SeedTask.show_tables t rand rest

/-- The observable end-of-run actions performed by task_end_messages: the
destiny and freedom console animations, the seed sample output, and the
standard run-end summary (print_run_end_messages). -/
inductive EndAction
  | destiny_animation
  | freedom_animation
  | seed_show (renders : List ShowRender)
  | run_end_summary (results : List RunResult)
  deriving DecidableEq, Repr

/-- Embedding of SeedTask.task_end_messages (seed.py lines 92-104): the
destiny flag triggers the destiny animation and returns early, then the
freedom flag likewise; otherwise the show flag additionally renders the table
samples, and print_run_end_messages emits the standard summary. -/
def SeedTask.task_end_messages (t : SeedTask) (rand : List String → Nat)
    (results : List RunResult) : Except AttributeError (List EndAction) :=
  if t.args.destiny then
    .ok [.destiny_animation]
  else if t.args.freedom then
    .ok [.freedom_animation]
  else if t.args.show_sample then
    match SeedTask.show_tables t rand results with
    | .error e => .error e
    | .ok renders => .ok [.seed_show renders, .run_end_summary results]
  else
    .ok [.run_end_summary results]

/-- Modelled from the spec: the Orchestrator scheduling loop of the task base
class (run.py / runnable.py, not under src/): it attempts every selected node
in order and, when raise_on_first_error is set, stops scheduling new nodes
once an Error result is observed. -/
def runSelectedNodes (raiseOnFirstError : Bool)
    (exec : ResourceNode → RunResult) : List ResourceNode → List RunResult
  | [] => []
  | n :: rest =>
      let res := exec n
      if raiseOnFirstError ∧ res.status = NodeStatus.Error then
        [res]
      else
        res :: runSelectedNodes raiseOnFirstError exec rest

/-! Concrete sample values used by the witnesses. -/

def seedNodeA : ResourceNode :=
  { unique_id := "seed.proj.a", resource_type := .Seed, schema := "main",
    «alias» := "a", node_info := "infoA" }

def seedNodeB : ResourceNode :=
  { unique_id := "seed.proj.b", resource_type := .Seed, schema := "main",
    «alias» := "b", node_info := "infoB" }

def modelNodeC : ResourceNode :=
  { unique_id := "model.proj.c", resource_type := .Model, schema := "main",
    «alias» := "c", node_info := "infoC" }

def sampleManifest : Manifest := ⟨[seedNodeA, modelNodeC, seedNodeB]⟩

def sampleGraph : Graph := ⟨["seed.proj.a", "model.proj.c", "seed.proj.b"]⟩

def quietArgs : Args := { destiny := false, freedom := false, show_sample := false }

def taskBoth : SeedTask :=
  { args := quietArgs, manifest := some sampleManifest, graph := some sampleGraph,
    previous_state := none }

def taskNoManifest : SeedTask :=
  { args := quietArgs, manifest := none, graph := some sampleGraph,
    previous_state := none }

def sampleSelector : ResourceTypeSelector :=
  { graph := sampleGraph, manifest := sampleManifest, previous_state := none,
    resource_types := [NodeType.Seed] }

def sampleTable : AgateTable := ⟨[["1", "x"], ["2", "y"], ["3", "z"]]⟩

def emptyTable : AgateTable := ⟨[]⟩

def zeroKey : List String → Nat := fun _ => 0

/-! Helper lemmas shared by the claim theorems. -/

theorem get_node_selector_eq_error (t : SeedTask)
    (h : t.manifest = none ∨ t.graph = none) :
    t.get_node_selector =
      .error ⟨"manifest and graph must be set to get perform node selection"⟩ := by
  unfold SeedTask.get_node_selector
  rcases h with h | h <;> simp [h]

theorem get_node_selector_eq_ok (t : SeedTask) (m : Manifest) (g : Graph)
    (hm : t.manifest = some m) (hg : t.graph = some g) :
    t.get_node_selector =
      .ok { graph := g, manifest := m, previous_state := t.previous_state,
            resource_types := [NodeType.Seed] } := by
  unfold SeedTask.get_node_selector
  simp [hm, hg]

theorem get_node_selector_ok_inv (t : SeedTask) (sel : ResourceTypeSelector)
    (hsel : t.get_node_selector = .ok sel) :
    t.manifest = some sel.manifest ∧ t.graph = some sel.graph ∧
      sel.resource_types = [NodeType.Seed] := by
  rcases hm : t.manifest with _ | m
  · rw [get_node_selector_eq_error t (Or.inl hm)] at hsel
    exact absurd hsel (by simp)
  · rcases hg : t.graph with _ | g
    · rw [get_node_selector_eq_error t (Or.inr hg)] at hsel
      exact absurd hsel (by simp)
    · rw [get_node_selector_eq_ok t m g hm hg] at hsel
      have he : ({ graph := g, manifest := m, previous_state := t.previous_state,
                   resource_types := [NodeType.Seed] } : ResourceTypeSelector) = sel :=
        Except.ok.inj hsel
      subst he
      exact ⟨rfl, rfl, rfl⟩

theorem contains_seed_eq (x : NodeType) :
    [NodeType.Seed].contains x = decide (x = NodeType.Seed) := by
  cases x <;> rfl

/-- C1: with the manifest or the graph unset, get_node_selector raises
DbtInternalError carrying the message that manifest and graph must be set,
before any selector is constructed; with both set, it raises nothing and
returns the Seed resource-type selector. -/
theorem seed_get_node_selector_precondition (t : SeedTask) :
    ((t.manifest = none ∨ t.graph = none) →
      t.get_node_selector =
        .error ⟨"manifest and graph must be set to get perform node selection"⟩) ∧
    (∀ m g, t.manifest = some m → t.graph = some g →
      t.get_node_selector =
        .ok { graph := g, manifest := m, previous_state := t.previous_state,
              resource_types := [NodeType.Seed] }) :=
  ⟨get_node_selector_eq_error t, fun m g hm hg => get_node_selector_eq_ok t m g hm hg⟩

theorem seed_get_node_selector_precondition_witness :
    SeedTask.get_node_selector taskNoManifest =
      .error ⟨"manifest and graph must be set to get perform node selection"⟩ ∧
    SeedTask.get_node_selector taskBoth =
      .ok { graph := sampleGraph, manifest := sampleManifest, previous_state := none,
            resource_types := [NodeType.Seed] } :=
  ⟨(seed_get_node_selector_precondition taskNoManifest).1 (Or.inl rfl),
   (seed_get_node_selector_precondition taskBoth).2 sampleManifest sampleGraph rfl rfl⟩

/-- C2: the selector returned by get_node_selector selects exactly the nodes
whose declared resource type is Seed: selection equals the Seed filter of the
manifest nodes, membership holds exactly for Seed nodes of the manifest, and
the count equals the number of Seed nodes. -/
theorem seed_selection_exactly_seed_nodes (t : SeedTask) (sel : ResourceTypeSelector)
    (hsel : t.get_node_selector = .ok sel) :
    sel.select =
      sel.manifest.nodes.filter (fun n => decide (n.resource_type = NodeType.Seed)) ∧
    (∀ n, n ∈ sel.select ↔
      n ∈ sel.manifest.nodes ∧ n.resource_type = NodeType.Seed) ∧
    sel.select.length =
      sel.manifest.nodes.countP (fun n => decide (n.resource_type = NodeType.Seed)) := by
  obtain ⟨hm, hg, hrt⟩ := get_node_selector_ok_inv t sel hsel
  have hfilter : sel.select =
      sel.manifest.nodes.filter (fun n => decide (n.resource_type = NodeType.Seed)) := by
    unfold ResourceTypeSelector.select
    rw [hrt]
    exact List.filter_congr (fun n _ => contains_seed_eq n.resource_type)
  refine ⟨hfilter, ?_, ?_⟩
  · intro n
    rw [hfilter]
    simp [List.mem_filter]
  · rw [hfilter, List.countP_eq_length_filter]

theorem seed_selection_exactly_seed_nodes_witness :
    ResourceTypeSelector.select sampleSelector =
      sampleSelector.manifest.nodes.filter
        (fun n => decide (n.resource_type = NodeType.Seed)) ∧
    ResourceTypeSelector.select sampleSelector = [seedNodeA, seedNodeB] :=
  ⟨(seed_selection_exactly_seed_nodes taskBoth sampleSelector rfl).1, by decide⟩

/-- C3: SeedRunner.compile is the identity on the node of the runner: for
every manifest argument it returns the node itself, unchanged, and leaves the
runner state untouched. -/
theorem seed_compile_identity (r : SeedRunner) (m : Manifest) :
    r.compile m = r.node :=
  rfl

/-- C5: SeedTask.defer_to_manifest is a no-op: for every adapter and selected
uid set it leaves the task state unchanged and performs no previous-state
provider query. -/
theorem seed_defer_to_manifest_noop (t : SeedTask) (a : Adapter)
    (uids : List String) :
    t.defer_to_manifest a uids = (t, []) :=
  rfl

theorem runSelectedNodes_false (exec : ResourceNode → RunResult)
    (nodes : List ResourceNode) :
    runSelectedNodes false exec nodes = nodes.map exec := by
  induction nodes with
  | nil => rfl
  | cons n rest ih => simp [runSelectedNodes, ih]

def errExec : ResourceNode → RunResult :=
  fun n => { status := .Error, message := some "boom", execution_time := 0,
             node := n, agate_table := none }

/-- C4: the fail-fast policy of the seed task is the raise_on_first_error
boolean consumed by the scheduling loop; for the seed task it yields false, so
every selected node is attempted regardless of earlier failures, while the
same switch set to true makes the loop stop early, so the policy is a real
configuration switch of the loop, not a constant of the loop itself. -/
theorem seed_raise_on_first_error_policy (t : SeedTask)
    (exec : ResourceNode → RunResult) (nodes : List ResourceNode) :
    t.raise_on_first_error = false ∧
    runSelectedNodes t.raise_on_first_error exec nodes = nodes.map exec ∧
    (runSelectedNodes t.raise_on_first_error exec nodes).length = nodes.length ∧
    (∃ exec2 : ResourceNode → RunResult, ∃ nodes2 : List ResourceNode,
      (runSelectedNodes true exec2 nodes2).length ≠ nodes2.length) := by
  refine ⟨rfl, runSelectedNodes_false exec nodes, ?_, ?_⟩
  · rw [SeedTask.raise_on_first_error, runSelectedNodes_false exec nodes,
        List.length_map]
  · exact ⟨errExec, [seedNodeA, seedNodeB], by decide⟩

/-- C6: the per-item notification emitted by print_result_line has ERROR
severity exactly when the result status is Error and INFO severity otherwise,
and its payload fields are copied unchanged from the result and runner. -/
theorem seed_print_result_line_severity (r : SeedRunner) (result : RunResult) :
    ((r.print_result_line result).level = EventLevel.ERROR ↔
      result.status = NodeStatus.Error) ∧
    ((r.print_result_line result).level = EventLevel.INFO ↔
      result.status ≠ NodeStatus.Error) ∧
    (r.print_result_line result).status = result.status ∧
    (r.print_result_line result).result_message = result.message ∧
    (r.print_result_line result).index = r.node_index ∧
    (r.print_result_line result).total = r.num_nodes ∧
    (r.print_result_line result).execution_time = result.execution_time ∧
    (r.print_result_line result).schema = r.node.schema ∧
    (r.print_result_line result).relation = result.node.«alias» := by
  unfold SeedRunner.print_result_line
  by_cases h : result.status = NodeStatus.Error <;> simp [h]

def sampleLoadResult : LoadResult := ⟨sampleTable⟩

def sampleContext : ExecutionContext :=
  { raw_status := .Success, raw_message := some "loaded", elapsed := 5,
    load_result := fun name =>
      if name = "agate_table" then some sampleLoadResult else none }

def sampleRunner : SeedRunner := { node := seedNodeA, node_index := 1, num_nodes := 2 }

/-- C7: build_run_model_result returns exactly the base-builder result with
the loaded agate table attached as the only augmentation: status, message,
timing and node are the base-builder values unchanged. -/
theorem seed_build_run_model_result_augments (r : SeedRunner)
    (model : ResourceNode) (context : ExecutionContext) (lr : LoadResult)
    (h : context.load_result "agate_table" = some lr) :
    r.build_run_model_result model context =
      .ok { status := (base_build_run_model_result model context).status,
            message := (base_build_run_model_result model context).message,
            execution_time := (base_build_run_model_result model context).execution_time,
            node := (base_build_run_model_result model context).node,
            agate_table := some lr.table } := by
  unfold SeedRunner.build_run_model_result
  rw [h]

theorem seed_build_run_model_result_augments_witness :
    SeedRunner.build_run_model_result sampleRunner seedNodeA sampleContext =
      .ok { status := (base_build_run_model_result seedNodeA sampleContext).status,
            message := (base_build_run_model_result seedNodeA sampleContext).message,
            execution_time :=
              (base_build_run_model_result seedNodeA sampleContext).execution_time,
            node := (base_build_run_model_result seedNodeA sampleContext).node,
            agate_table := some sampleTable } :=
  seed_build_run_model_result_augments sampleRunner seedNodeA sampleContext
    sampleLoadResult rfl

/-- Specification-side description of the show_tables output: one render per
result whose status is not Error, kept in list order, built from the payload
of that result. -/
def expectedRenders (rand : List String → Nat) (results : List RunResult) :
    List ShowRender :=
  results.filterMap (fun r =>
    if r.status = NodeStatus.Error then none
    else r.agate_table.map (fun tb =>
      { header := "Random sample of table: " ++ r.node.schema ++ "." ++ r.node.«alias»,
        rows := (tb.order_by rand).print_table 10 none }))

theorem show_table_ok (t : SeedTask) (rand : List String → Nat)
    (r : RunResult) (tb : AgateTable) (h : r.agate_table = some tb) :
    t.show_table rand r =
      .ok { header := "Random sample of table: " ++ r.node.schema ++ "." ++ r.node.«alias»,
            rows := (tb.order_by rand).print_table 10 none } := by
  unfold SeedTask.show_table
  rw [h]

theorem print_table_sample_length (tb : AgateTable) (rand : List String → Nat) :
    ((tb.order_by rand).print_table 10 none).length = min tb.rows.length 10 := by
  unfold AgateTable.print_table AgateTable.order_by
  simp [List.length_take, Nat.min_comm]

theorem show_tables_eq_expected (t : SeedTask) (rand : List String → Nat)
    (results : List RunResult)
    (h : ∀ r ∈ results, r.status ≠ NodeStatus.Error → r.agate_table.isSome) :
    SeedTask.show_tables t rand results = .ok (expectedRenders rand results) := by
  induction results with
  | nil => rfl
  | cons result rest ih =>
    have hrest : ∀ r ∈ rest, r.status ≠ NodeStatus.Error → r.agate_table.isSome :=
      fun r hr => h r (List.mem_cons_of_mem _ hr)
    by_cases hs : result.status = NodeStatus.Error
    · simp [SeedTask.show_tables, expectedRenders, hs, ih hrest]
    · obtain ⟨tb, htb⟩ :=
        Option.isSome_iff_exists.mp (h result (List.mem_cons_self _ _) hs)
      rw [SeedTask.show_tables]
      simp only [hs, ne_eq, not_false_iff, if_true, show_table_ok t rand result tb htb,
                 ih hrest, expectedRenders, List.filterMap_cons, if_neg hs, htb,
                 Option.map_some]
      rfl

theorem expectedRenders_length (rand : List String → Nat)
    (results : List RunResult)
    (h : ∀ r ∈ results, r.status ≠ NodeStatus.Error → r.agate_table.isSome) :
    (expectedRenders rand results).length =
      results.countP (fun r => decide (r.status ≠ NodeStatus.Error)) := by
  induction results with
  | nil => rfl
  | cons result rest ih =>
    have hrest : ∀ r ∈ rest, r.status ≠ NodeStatus.Error → r.agate_table.isSome :=
      fun r hr => h r (List.mem_cons_of_mem _ hr)
    by_cases hs : result.status = NodeStatus.Error
    · simp [expectedRenders, List.filterMap_cons, hs, List.countP_cons] at ih ⊢
      exact ih hrest
    · obtain ⟨tb, htb⟩ :=
        Option.isSome_iff_exists.mp (h result (List.mem_cons_self _ _) hs)
      simp [expectedRenders, List.filterMap_cons, if_neg hs, htb,
            List.countP_cons, hs] at ih ⊢
      exact ih hrest

/-- C8: under the precondition that every non-Error result carries a payload,
show_tables renders exactly one sample per non-Error result, in list order,
skipping Error results; each sample is headed by the schema and alias of the
node and contains min(M, 10) of the M payload rows, and an empty payload
renders zero rows without raising. -/
theorem seed_show_tables_sampling (t : SeedTask) (rand : List String → Nat)
    (results : List RunResult)
    (h : ∀ r ∈ results, r.status ≠ NodeStatus.Error → r.agate_table.isSome) :
    SeedTask.show_tables t rand results = .ok (expectedRenders rand results) ∧
    (expectedRenders rand results).length =
      results.countP (fun r => decide (r.status ≠ NodeStatus.Error)) ∧
    (∀ r ∈ results, ∀ tb, r.status ≠ NodeStatus.Error → r.agate_table = some tb →
      t.show_table rand r =
        .ok { header := "Random sample of table: " ++ r.node.schema ++ "." ++ r.node.«alias»,
              rows := (tb.order_by rand).print_table 10 none } ∧
      ((tb.order_by rand).print_table 10 none).length = min tb.rows.length 10) :=
  ⟨show_tables_eq_expected t rand results h,
   expectedRenders_length rand results h,
   fun r _ tb _ htb =>
     ⟨show_table_ok t rand r tb htb, print_table_sample_length tb rand⟩⟩

def okResultA : RunResult :=
  { status := .Success, message := some "INSERT 3", execution_time := 1,
    node := seedNodeA, agate_table := some sampleTable }

def errResultB : RunResult :=
  { status := .Error, message := some "boom", execution_time := 2,
    node := seedNodeB, agate_table := none }

def okResultEmpty : RunResult :=
  { status := .Success, message := some "INSERT 0", execution_time := 0,
    node := seedNodeB, agate_table := some emptyTable }

theorem seed_show_tables_sampling_witness :
    SeedTask.show_tables taskBoth zeroKey [okResultA, errResultB, okResultEmpty] =
      .ok (expectedRenders zeroKey [okResultA, errResultB, okResultEmpty]) ∧
    (expectedRenders zeroKey [okResultA, errResultB, okResultEmpty]).length = 2 ∧
    ((sampleTable.order_by zeroKey).print_table 10 none).length = 3 ∧
    ((emptyTable.order_by zeroKey).print_table 10 none).length = 0 :=
  ⟨(seed_show_tables_sampling taskBoth zeroKey [okResultA, errResultB, okResultEmpty]
      (by decide)).1,
   by decide,
   by simp [print_table_sample_length, sampleTable],
   by simp [print_table_sample_length, emptyTable]⟩

def destinyTask : SeedTask :=
  { args := { destiny := true, freedom := false, show_sample := false },
    manifest := some sampleManifest, graph := some sampleGraph,
    previous_state := none }

def showTask : SeedTask :=
  { args := { destiny := false, freedom := false, show_sample := true },
    manifest := some sampleManifest, graph := some sampleGraph,
    previous_state := none }

def sampleResults : List RunResult := [okResultA, errResultB]

/-- C9 counterexample: with the destiny flag set, task_end_messages performs
only the destiny animation and returns early, so no standard run-end summary
is emitted for that completed run. -/
theorem seed_task_end_messages_counterexample :
    SeedTask.task_end_messages destinyTask zeroKey sampleResults =
      .ok [EndAction.destiny_animation] ∧
    EndAction.run_end_summary sampleResults ∉ [EndAction.destiny_animation] := by
  refine ⟨rfl, ?_⟩
  simp

/-- C9 amended: when neither the destiny flag nor the freedom flag is set,
task_end_messages emits the standard run-end summary, and the sampling hook
output, when the show flag is set and the hook does not raise, is emitted in
addition to that summary, not instead of it. -/
theorem seed_task_end_messages_summary (t : SeedTask) (rand : List String → Nat)
    (results : List RunResult) (renders : List ShowRender)
    (h1 : t.args.destiny = false) (h2 : t.args.freedom = false)
    (hr : SeedTask.show_tables t rand results = .ok renders) :
    (t.args.show_sample = true →
      t.task_end_messages rand results =
        .ok [.seed_show renders, .run_end_summary results]) ∧
    (t.args.show_sample = false →
      t.task_end_messages rand results = .ok [.run_end_summary results]) := by
  unfold SeedTask.task_end_messages
  constructor
  · intro hs
    simp [h1, h2, hs, hr]
  · intro hs
    simp [h1, h2, hs]

theorem seed_task_end_messages_summary_witness :
    SeedTask.task_end_messages showTask zeroKey sampleResults =
      .ok [.seed_show (expectedRenders zeroKey sampleResults),
           .run_end_summary sampleResults] ∧
    SeedTask.task_end_messages taskBoth zeroKey sampleResults =
      .ok [.run_end_summary sampleResults] :=
  ⟨(seed_task_end_messages_summary showTask zeroKey sampleResults
      (expectedRenders zeroKey sampleResults) rfl rfl
      (show_tables_eq_expected showTask zeroKey sampleResults (by decide))).1 rfl,
   (seed_task_end_messages_summary taskBoth zeroKey sampleResults
      (expectedRenders zeroKey sampleResults) rfl rfl
      (show_tables_eq_expected taskBoth zeroKey sampleResults (by decide))).2 rfl⟩

def skippedNoTable : RunResult :=
  { status := .Skipped, message := none, execution_time := 0,
    node := seedNodeB, agate_table := none }

/-- C10: show_table reads the agate_table payload unconditionally for every
result whose status is not Error, so a non-Error result without the payload
(for example a skipped node whose result was never built by the seed result
builder) makes the hook raise AttributeError at the order_by access and aborts
show_tables, while an Error-status result is simply skipped. -/
theorem seed_show_table_requires_payload (t : SeedTask) (rand : List String → Nat)
    (r : RunResult) (e : RunResult) (rest : List RunResult)
    (h1 : r.status ≠ NodeStatus.Error) (h2 : r.agate_table = none)
    (h3 : e.status = NodeStatus.Error) :
    t.show_table rand r = .error ⟨"order_by"⟩ ∧
    SeedTask.show_tables t rand (r :: rest) = .error ⟨"order_by"⟩ ∧
    SeedTask.show_tables t rand (e :: rest) = SeedTask.show_tables t rand rest := by
  have hshow : t.show_table rand r = .error ⟨"order_by"⟩ := by
    unfold SeedTask.show_table
    rw [h2]
  refine ⟨hshow, ?_, ?_⟩
  · rw [SeedTask.show_tables]
    simp [h1, hshow]
  · rw [SeedTask.show_tables]
    simp [h3]

theorem seed_show_table_requires_payload_witness :
    SeedTask.show_table taskBoth zeroKey skippedNoTable = .error ⟨"order_by"⟩ ∧
    SeedTask.show_tables taskBoth zeroKey [skippedNoTable] = .error ⟨"order_by"⟩ ∧
    SeedTask.show_tables taskBoth zeroKey [errResultB] =
      SeedTask.show_tables taskBoth zeroKey [] :=
  seed_show_table_requires_payload taskBoth zeroKey skippedNoTable errResultB []
    (by decide) rfl rfl
